import Mathlib

/-
Verification of the watcher/reconciliation core of `interface_mysql.py`.

The embedding models Python dictionaries of strings as association lists
(`Dict`), with lookup taking the first entry for a key, so that a list with
duplicate keys represents the dictionary where the first occurrence wins.
Python dictionary equality (`==` on `dict`, independent of insertion order)
is modelled by `Dict.beq`: extensional equality of lookups over the union
of the key sets.

`MySQLServer.database`, `MySQLDatabase.from_relation`, the event handlers
`on_changed` / `on_broken` / `init_state`, and the error hierarchy with its
attached statuses are translated from `src/interface_mysql.py`.  Exceptions
become an `Except` value; the `ops` framework event emission becomes the
list of `LifecycleEvent`s returned by a handler, and `StoredState.database`
becomes the explicit `Dict` state threaded through the handlers.
-/

namespace InterfaceMySQL

/-- A Python `dict` of strings, as an association list: lookup takes the
first entry with the key. -/
abbrev Dict := List (String × String)

/-- `d.get(k)` on a Python dict: `some v` when the key is present. -/
def Dict.get (d : Dict) (k : String) : Option String :=
  (d.find? (fun p => p.1 == k)).map (fun p => p.2)

/-- The keys of the dictionary (possibly with duplicates in the list model;
lookups only ever see the first occurrence). -/
def Dict.keys (d : Dict) : List String := d.map (fun p => p.1)

/-- Python dictionary equality `d1 == d2`: the two mappings agree on every
key of either, hence on every key at all.  Independent of insertion order. -/
def Dict.beq (d1 d2 : Dict) : Bool :=
  (Dict.keys d1 ++ Dict.keys d2).all (fun k => Dict.get d1 k == Dict.get d2 k)

/-- Severity of an `ops.model` status: `BlockedStatus` or `WaitingStatus`. -/
inductive Severity
  | Blocking
  | Waiting
deriving DecidableEq, Repr

/-- A status as produced by the library: severity plus message. -/
structure Status where
  severity : Severity
  message : String
deriving DecidableEq, Repr

/-- The `MySQLServerError` hierarchy: `MissingRelationError`,
`TooManyDatabasesError` (which also records `num_apps`), and
`IncompleteDatabaseError`. -/
inductive MySQLServerError
  | missingRelation (relation_name : String)
  | tooManyDatabases (relation_name : String) (num_apps : Nat)
  | incompleteDatabase (relation_name : String)
deriving DecidableEq, Repr

/-- The `status` attribute each `MySQLServerError` subclass sets in its
constructor. -/
def MySQLServerError.status : MySQLServerError → Status
  | .missingRelation rn => ⟨.Blocking, "Missing relation: " ++ rn⟩
  | .tooManyDatabases rn _ => ⟨.Blocking, "Too many related applications: " ++ rn⟩
  | .incompleteDatabase rn => ⟨.Waiting, "Waiting for database: " ++ rn⟩

/-- One relation on the channel: the application databag (`relation.app`'s
data) followed by the unit databags (`relation.units` in enumeration order,
each resolved through `relation.data`). -/
structure Relation where
  app : Dict
  units : List Dict

/-- Python truthiness of `data.get(field)`: present and non-empty. -/
def truthy : Option String → Bool
  | some v => v != ""
  | none => false

/-- The four mandatory source fields checked by `from_relation`. -/
def mandatoryFields : List String := ["database", "host", "user", "password"]

/-- `all(data.get(field) for field in ('database', 'host', 'user', 'password'))`. -/
def mandatoryOk (data : Dict) : Bool :=
  mandatoryFields.all (fun f => truthy (Dict.get data f))

/-- The `MySQLDatabase(...)` bundle constructed from one candidate databag;
only ever called on a candidate passing `mandatoryOk`, so the `getD ""`
defaults for the four mandatory fields are never taken.  `port` defaults to
`"3306"` only when the key is absent, exactly like `data.get('port', '3306')`. -/
def mkBundle (data : Dict) : Dict :=
  [("name", (Dict.get data "database").getD ""),
   ("host", (Dict.get data "host").getD ""),
   ("port", (Dict.get data "port").getD "3306"),
   ("username", (Dict.get data "user").getD ""),
   ("password", (Dict.get data "password").getD "")]

/-- The `for candidate in ...` loop of `from_relation`: first candidate with
all mandatory fields truthy wins; the loop's `else` clause returns `None`. -/
def fromCandidates : List Dict → Option Dict
  | [] => none
  | data :: rest =>
    if mandatoryOk data then some (mkBundle data) else fromCandidates rest

/-- `MySQLDatabase.from_relation(relation)`: candidates are
`[relation.app] + list(relation.units)`. -/
def MySQLDatabase.from_relation (r : Relation) : Option Dict :=
  fromCandidates (r.app :: r.units)

/-- `MySQLServer.database(self)`: the synchronous query.  `relations` is
`self._relations`, the list of relations on the channel. -/
def MySQLServer.database (relation_name : String) (relations : List Relation) :
    Except MySQLServerError Dict :=
  if relations.isEmpty then
    .error (.missingRelation relation_name)
  else if relations.length > 1 then
    .error (.tooManyDatabases relation_name relations.length)
  else
    match MySQLDatabase.from_relation (relations.headD ⟨[], []⟩) with
    | none => .error (.incompleteDatabase relation_name)
    | some db => .ok db

/-- Lifecycle events emitted through `MySQLServerEvents`. -/
inductive LifecycleEvent
  | database_available (db : Dict)
  | database_changed (db : Dict)
  | database_unavailable (st : Status)
deriving DecidableEq, Repr

/-- `MySQLServer.on_changed`: returns the new `state.database` together with
the events emitted during the pass, in emission order.  The source reads
`prev_db = self.state.database` before overwriting the stored state with
`dict(db)`; in this explicit-state translation `prev_db` is simply the
incoming `state`, and the returned first component is the overwritten
state.  `if not prev_db` is emptiness of the previous dictionary, and
`db != prev_db` is Python dictionary inequality, i.e. `Dict.beq`. -/
def MySQLServer.on_changed (relation_name : String) (relations : List Relation)
    (state : Dict) : Dict × List LifecycleEvent :=
  match MySQLServer.database relation_name relations with
  | .error e => ([], [.database_unavailable e.status])
  | .ok db =>
    if state.isEmpty then
      (db, [.database_available db])
    else if Dict.beq db state then
      (db, [])
    else
      (db, [.database_changed db])

/-- `MySQLServer.on_broken`: clear the state and emit
`database_unavailable` with the blocked missing-relation status. -/
def MySQLServer.on_broken (relation_name : String) (_state : Dict) :
    Dict × List LifecycleEvent :=
  ([], [.database_unavailable ⟨.Blocking, "Missing relation: " ++ relation_name⟩])

/-- `MySQLServer.init_state`: reset `state.database` to `{}` and run
`on_changed` immediately. -/
def MySQLServer.init_state (relation_name : String) (relations : List Relation)
    (_state : Dict) : Dict × List LifecycleEvent :=
  MySQLServer.on_changed relation_name relations []

/-- A notification delivered by the host framework: `relation_changed`
(with the relation list visible at that moment) or `relation_broken`. -/
inductive Notification
  | changed (relations : List Relation)
  | broken

/-- One reconciliation pass: dispatch one notification to its handler. -/
def MySQLServer.step (relation_name : String) (state : Dict) :
    Notification → Dict × List LifecycleEvent
  | .changed relations => MySQLServer.on_changed relation_name relations state
  | .broken => MySQLServer.on_broken relation_name state

/-- Process a sequence of notifications, concatenating the emitted events. -/
def MySQLServer.run (relation_name : String) (state : Dict) :
    List Notification → Dict × List LifecycleEvent
  | [] => (state, [])
  | n :: rest =>
    let r1 := MySQLServer.step relation_name state n
    let r2 := MySQLServer.run relation_name r1.1 rest
    (r2.1, r1.2 ++ r2.2)

/-
Concrete demonstration data used by the witness theorems: a complete
databag, a variant differing in `host`, an incomplete databag, and the
bundles they extract to.
-/

/-- A complete source databag. -/
def dataA : Dict := [("database", "app"), ("host", "10.0.0.5"), ("user", "u"), ("password", "p")]

/-- A complete source databag differing from `dataA` in `host`. -/
def dataB : Dict := [("database", "app"), ("host", "10.0.0.6"), ("user", "u"), ("password", "p")]

/-- An incomplete databag (missing `database`, `user`, `password`). -/
def dataI : Dict := [("host", "h")]

/-- A relation whose application databag is `dataA`, with no units. -/
def relA : Relation := ⟨dataA, []⟩

/-- A relation whose application databag is `dataB`, with no units. -/
def relB : Relation := ⟨dataB, []⟩

/-- The bundle extracted from `dataA`. -/
def bundleA : Dict :=
  [("name", "app"), ("host", "10.0.0.5"), ("port", "3306"), ("username", "u"), ("password", "p")]

/-- The bundle extracted from `dataB`. -/
def bundleB : Dict :=
  [("name", "app"), ("host", "10.0.0.6"), ("port", "3306"), ("username", "u"), ("password", "p")]

/-- The same mapping as `bundleA`, with the entries inserted in a different
order. -/
def bundlePerm : Dict :=
  [("host", "10.0.0.5"), ("name", "app"), ("password", "p"), ("port", "3306"), ("username", "u")]

/-
Helper lemmas about the dictionary model and the translated functions.
-/

theorem Dict.get_eq_none_of_not_mem (d : Dict) (k : String) (h : k ∉ Dict.keys d) :
    Dict.get d k = none := by
  unfold Dict.get
  have hn : d.find? (fun p => p.1 == k) = none := by
    apply List.find?_eq_none.mpr
    intro p hp hk
    apply h
    have hpk : p.1 = k := by simpa using hk
    exact hpk ▸ List.mem_map_of_mem (fun q => q.1) hp
  rw [hn]
  rfl

/-- `Dict.beq` is exactly Python dictionary equality: the two mappings agree
on every key, regardless of insertion order. -/
theorem Dict.beq_iff (d1 d2 : Dict) :
    Dict.beq d1 d2 = true ↔ ∀ k, Dict.get d1 k = Dict.get d2 k := by
  constructor
  · intro h k
    by_cases hk : k ∈ Dict.keys d1 ++ Dict.keys d2
    · have hall := List.all_eq_true.mp h k hk
      exact beq_iff_eq.mp hall
    · rw [Dict.get_eq_none_of_not_mem d1 k (fun hx => hk (List.mem_append.mpr (Or.inl hx))),
        Dict.get_eq_none_of_not_mem d2 k (fun hx => hk (List.mem_append.mpr (Or.inr hx)))]
  · intro h
    apply List.all_eq_true.mpr
    intro k _
    exact beq_iff_eq.mpr (h k)

theorem Dict.beq_refl (d : Dict) : Dict.beq d d = true :=
  (Dict.beq_iff d d).mpr (fun _ => rfl)

theorem isEmpty_false_of_get_some (st : Dict) (k v : String)
    (h : Dict.get st k = some v) : st.isEmpty = false := by
  cases st with
  | nil => simp [Dict.get] at h
  | cons a l => rfl

theorem truthy_getD_of_truthy (o : Option String) (h : truthy o = true) :
    ((o.getD "") != "") = true := by
  cases o with
  | none => simp [truthy] at h
  | some w => simpa [truthy] using h

/-- Every "channel changed" pass produces an empty or singleton event list. -/
theorem on_changed_shape (rn : String) (relations : List Relation) (st : Dict) :
    (MySQLServer.on_changed rn relations st).2 = [] ∨
    ∃ e, (MySQLServer.on_changed rn relations st).2 = [e] := by
  unfold MySQLServer.on_changed
  split
  · exact Or.inr ⟨_, rfl⟩
  · split
    · exact Or.inr ⟨_, rfl⟩
    · split
      · exact Or.inl rfl
      · exact Or.inr ⟨_, rfl⟩

/-- The extraction loop picks the first candidate passing the mandatory
field check. -/
theorem fromCandidates_eq_find (l : List Dict) :
    fromCandidates l = (l.find? mandatoryOk).map mkBundle := by
  induction l with
  | nil => rfl
  | cons d rest ih =>
    by_cases h : mandatoryOk d = true
    · simp [fromCandidates, List.find?_cons, h]
    · simp only [Bool.not_eq_true] at h
      simp [fromCandidates, List.find?_cons, h, ih]

theorem find_skip_incomplete (p : Dict → Bool) (pre : List Dict) (u : Dict) (post : List Dict)
    (hpre : ∀ c ∈ pre, p c = false) (hu : p u = true) :
    (pre ++ u :: post).find? p = some u := by
  induction pre with
  | nil => simp [List.find?_cons, hu]
  | cons a rest ih =>
    have ha := hpre a (by simp)
    simp only [List.cons_append, List.find?_cons, ha]
    exact ih (fun c hc => hpre c (by simp [hc]))

theorem mkBundle_isEmpty (c : Dict) : (mkBundle c).isEmpty = false := rfl

theorem mkBundle_get_name (c : Dict) :
    Dict.get (mkBundle c) "name" = some ((Dict.get c "database").getD "") := rfl

theorem mkBundle_get_host (c : Dict) :
    Dict.get (mkBundle c) "host" = some ((Dict.get c "host").getD "") := rfl

theorem mkBundle_get_port (c : Dict) :
    Dict.get (mkBundle c) "port" = some ((Dict.get c "port").getD "3306") := rfl

theorem mkBundle_get_username (c : Dict) :
    Dict.get (mkBundle c) "username" = some ((Dict.get c "user").getD "") := rfl

theorem mkBundle_get_password (c : Dict) :
    Dict.get (mkBundle c) "password" = some ((Dict.get c "password").getD "") := rfl

theorem mkBundle_keys (c : Dict) :
    Dict.keys (mkBundle c) = ["name", "host", "port", "username", "password"] := rfl

theorem database_nil (rn : String) :
    MySQLServer.database rn [] = .error (.missingRelation rn) := rfl

theorem database_single (rn : String) (r : Relation) :
    MySQLServer.database rn [r] =
      match MySQLDatabase.from_relation r with
      | none => .error (.incompleteDatabase rn)
      | some db => .ok db := rfl

theorem database_many (rn : String) (r s : Relation) (t : List Relation) :
    MySQLServer.database rn (r :: s :: t) =
      .error (.tooManyDatabases rn (t.length + 2)) := by
  unfold MySQLServer.database
  rw [if_neg (by simp), if_pos (by simp)]
  simp

/-- Any successful result of the synchronous query is a bundle built by
`mkBundle` from some candidate databag. -/
theorem database_ok_shape (rn : String) (relations : List Relation) (db : Dict)
    (h : MySQLServer.database rn relations = .ok db) : ∃ c, db = mkBundle c := by
  match relations with
  | [] => rw [database_nil] at h; simp at h
  | [r] =>
    rw [database_single] at h
    cases hfr : MySQLDatabase.from_relation r with
    | none => rw [hfr] at h; simp at h
    | some d =>
      rw [hfr] at h
      simp only [Except.ok.injEq] at h
      subst h
      rw [MySQLDatabase.from_relation, fromCandidates_eq_find] at hfr
      obtain ⟨c, _, hc⟩ := Option.map_eq_some'.mp hfr
      exact ⟨c, hc.symm⟩
  | r :: s :: t => rw [database_many] at h; simp at h

/-- Claim C1 (counterexample): with empty persisted state and a failing pass
(zero relations on the channel, hence a cardinality failure), `on_changed`
nevertheless emits a `database_unavailable` lifecycle event; the watcher
does not stay silent in `NoBundle`. -/
theorem claim_c1_counterexample :
    ([] : Dict).isEmpty = true ∧
    MySQLServer.database "mysql" [] = .error (.missingRelation "mysql") ∧
    MySQLServer.on_changed "mysql" [] [] =
      ([], [.database_unavailable ⟨.Blocking, "Missing relation: mysql"⟩]) ∧
    (MySQLServer.on_changed "mysql" [] []).2.length = 1 :=
  ⟨rfl, rfl, rfl, rfl⟩

/-- Claim C1 (amended): on any cardinality or extraction failure during a
"channel changed" pass, the watcher clears the persisted bundle and emits
exactly one `database_unavailable` event carrying the failure's mapped
status, regardless of whether a bundle previously existed in persisted
state. -/
theorem claim_c1_amended (rn : String) (relations : List Relation) (st : Dict)
    (e : MySQLServerError) (h : MySQLServer.database rn relations = .error e) :
    MySQLServer.on_changed rn relations st = ([], [.database_unavailable e.status]) := by
  simp [MySQLServer.on_changed, h]

theorem claim_c1_witness :
    MySQLServer.on_changed "mysql" [] [("name", "x")] =
      ([], [.database_unavailable (MySQLServerError.missingRelation "mysql").status]) :=
  claim_c1_amended "mysql" [] [("name", "x")] (.missingRelation "mysql") rfl

/-- Claim C2: the synchronous query `database` fails with
`MissingRelationError` exactly when the relation list is empty, fails with
`TooManyDatabasesError` exactly when the list has more than one entry, and
on a single relation either returns a bundle or fails with
`IncompleteDatabaseError` — no other outcome is possible. -/
theorem claim_c2_database_taxonomy (rn : String) (relations : List Relation) :
    (MySQLServer.database rn relations = .error (.missingRelation rn) ↔ relations = []) ∧
    ((∃ n, MySQLServer.database rn relations = .error (.tooManyDatabases rn n)) ↔
      1 < relations.length) ∧
    (∀ r, relations = [r] →
      MySQLServer.database rn relations = .error (.incompleteDatabase rn) ∨
      ∃ db, MySQLServer.database rn relations = .ok db) := by
  refine ⟨?_, ?_, ?_⟩
  · constructor
    · intro h
      match relations with
      | [] => rfl
      | [r] =>
        rw [database_single] at h
        cases hfr : MySQLDatabase.from_relation r <;> rw [hfr] at h <;> simp at h
      | r :: s :: t => rw [database_many] at h; simp at h
    · intro h
      subst h
      rfl
  · constructor
    · intro hex
      obtain ⟨n, h⟩ := hex
      match relations with
      | [] => rw [database_nil] at h; simp at h
      | [r] =>
        rw [database_single] at h
        cases hfr : MySQLDatabase.from_relation r <;> rw [hfr] at h <;> simp at h
      | r :: s :: t => simp
    · intro h
      match relations with
      | [] => simp at h
      | [r] => simp at h
      | r :: s :: t => exact ⟨t.length + 2, database_many rn r s t⟩
  · intro r hrel
    subst hrel
    rw [database_single]
    cases hfr : MySQLDatabase.from_relation r with
    | none => exact Or.inl rfl
    | some db => exact Or.inr ⟨db, rfl⟩

theorem claim_c2_witness :
    MySQLServer.database "mysql" [] = .error (.missingRelation "mysql") ∧
    (∃ n, MySQLServer.database "mysql" [relA, relB] = .error (.tooManyDatabases "mysql" n)) ∧
    (MySQLServer.database "mysql" [⟨dataI, []⟩] = .error (.incompleteDatabase "mysql") ∨
      ∃ db, MySQLServer.database "mysql" [⟨dataI, []⟩] = .ok db) :=
  ⟨(claim_c2_database_taxonomy "mysql" []).1.mpr rfl,
   (claim_c2_database_taxonomy "mysql" [relA, relB]).2.1.mpr (by decide),
   (claim_c2_database_taxonomy "mysql" [⟨dataI, []⟩]).2.2 ⟨dataI, []⟩ rfl⟩

/-- Claim C5: the status attached to each failure kind is exactly as the
status table states, and a "channel broken" notification produces a
Blocking "Missing relation" status, always interpolating the channel's
relation name. -/
theorem claim_c5_status_mapping (rn : String) :
    (MySQLServerError.missingRelation rn).status =
      ⟨.Blocking, "Missing relation: " ++ rn⟩ ∧
    (∀ n, (MySQLServerError.tooManyDatabases rn n).status =
      ⟨.Blocking, "Too many related applications: " ++ rn⟩) ∧
    (MySQLServerError.incompleteDatabase rn).status =
      ⟨.Waiting, "Waiting for database: " ++ rn⟩ ∧
    ∀ st, (MySQLServer.on_broken rn st).2 =
      [.database_unavailable ⟨.Blocking, "Missing relation: " ++ rn⟩] :=
  ⟨rfl, fun _ => rfl, rfl, fun _ => rfl⟩

/-- Claim C6: on every "channel broken" notification, regardless of the
prior persisted state, the watcher clears the persisted bundle and emits
exactly one `database_unavailable` event with the Blocking
"Missing relation" status. -/
theorem claim_c6_on_broken_clears (rn : String) (st : Dict) :
    MySQLServer.on_broken rn st =
      ([], [.database_unavailable ⟨.Blocking, "Missing relation: " ++ rn⟩]) := rfl

/-- Claim C3: if every candidate databag fails the mandatory-field check,
extraction returns no bundle and the query on the single relation fails
with `IncompleteDatabaseError`, whose status has Waiting severity; if some
candidate passes, extraction returns a complete five-field bundle built
from the first passing candidate, with `port` taken from the candidate when
present and `"3306"` when absent. -/
theorem claim_c3_completeness (rn : String) (r : Relation) :
    ((∀ c ∈ r.app :: r.units, mandatoryOk c = false) →
      MySQLDatabase.from_relation r = none ∧
      MySQLServer.database rn [r] = .error (.incompleteDatabase rn) ∧
      (MySQLServerError.incompleteDatabase rn).status.severity = .Waiting) ∧
    ((∃ c ∈ r.app :: r.units, mandatoryOk c = true) →
      ∃ c, (r.app :: r.units).find? mandatoryOk = some c ∧
        MySQLDatabase.from_relation r = some (mkBundle c) ∧
        Dict.keys (mkBundle c) = ["name", "host", "port", "username", "password"] ∧
        truthy (Dict.get (mkBundle c) "name") = true ∧
        truthy (Dict.get (mkBundle c) "host") = true ∧
        truthy (Dict.get (mkBundle c) "username") = true ∧
        truthy (Dict.get (mkBundle c) "password") = true ∧
        Dict.get (mkBundle c) "port" = some ((Dict.get c "port").getD "3306")) := by
  constructor
  · intro hall
    have hfind : (r.app :: r.units).find? mandatoryOk = none := by
      apply List.find?_eq_none.mpr
      intro c hc hok
      rw [hall c hc] at hok
      exact Bool.false_ne_true hok
    have hfr : MySQLDatabase.from_relation r = none := by
      rw [MySQLDatabase.from_relation, fromCandidates_eq_find, hfind]
      rfl
    refine ⟨hfr, ?_, rfl⟩
    rw [database_single, hfr]
  · intro hex
    have hsome : ((r.app :: r.units).find? mandatoryOk).isSome := by
      rw [List.find?_isSome]
      obtain ⟨c0, hmem0, hok0⟩ := hex
      exact ⟨c0, hmem0, hok0⟩
    obtain ⟨c, hc⟩ := Option.isSome_iff_exists.mp hsome
    have hok : mandatoryOk c = true := List.find?_some hc
    have h4 : ∀ f ∈ mandatoryFields, truthy (Dict.get c f) = true := by
      rw [mandatoryOk] at hok
      exact fun f hf => List.all_eq_true.mp hok f hf
    refine ⟨c, hc, ?_, rfl, ?_, ?_, ?_, ?_, rfl⟩
    · rw [MySQLDatabase.from_relation, fromCandidates_eq_find, hc]
      rfl
    · rw [mkBundle_get_name]
      exact truthy_getD_of_truthy _ (h4 "database" (by simp [mandatoryFields]))
    · rw [mkBundle_get_host]
      exact truthy_getD_of_truthy _ (h4 "host" (by simp [mandatoryFields]))
    · rw [mkBundle_get_username]
      exact truthy_getD_of_truthy _ (h4 "user" (by simp [mandatoryFields]))
    · rw [mkBundle_get_password]
      exact truthy_getD_of_truthy _ (h4 "password" (by simp [mandatoryFields]))

theorem claim_c3_witness :
    (MySQLDatabase.from_relation ⟨dataI, []⟩ = none ∧
      MySQLServer.database "mysql" [⟨dataI, []⟩] = .error (.incompleteDatabase "mysql") ∧
      (MySQLServerError.incompleteDatabase "mysql").status.severity = .Waiting) ∧
    ∃ c, ([dataA] : List Dict).find? mandatoryOk = some c ∧
      MySQLDatabase.from_relation relA = some (mkBundle c) ∧
      Dict.keys (mkBundle c) = ["name", "host", "port", "username", "password"] ∧
      truthy (Dict.get (mkBundle c) "name") = true ∧
      truthy (Dict.get (mkBundle c) "host") = true ∧
      truthy (Dict.get (mkBundle c) "username") = true ∧
      truthy (Dict.get (mkBundle c) "password") = true ∧
      Dict.get (mkBundle c) "port" = some ((Dict.get c "port").getD "3306") :=
  ⟨(claim_c3_completeness "mysql" ⟨dataI, []⟩).1 (by decide),
   (claim_c3_completeness "mysql" relA).2 ⟨dataA, by simp [relA], by decide⟩⟩

/-- Claim C4: extraction consults the application databag first and then
the unit databags in enumeration order, returning the bundle of the first
candidate passing the mandatory-field check and never a later one; in
particular an incomplete application databag falls back to the first
complete unit databag, and a complete application databag always wins. -/
theorem claim_c4_priority_order (r : Relation) :
    MySQLDatabase.from_relation r =
      ((r.app :: r.units).find? mandatoryOk).map mkBundle ∧
    (mandatoryOk r.app = false →
      ∀ pre u post, r.units = pre ++ u :: post →
        (∀ c ∈ pre, mandatoryOk c = false) → mandatoryOk u = true →
        MySQLDatabase.from_relation r = some (mkBundle u)) ∧
    (mandatoryOk r.app = true →
      MySQLDatabase.from_relation r = some (mkBundle r.app)) := by
  refine ⟨fromCandidates_eq_find _, ?_, ?_⟩
  · intro happ pre u post hunits hpre hu
    rw [MySQLDatabase.from_relation, fromCandidates_eq_find, hunits,
      List.find?_cons_of_neg _ (by simp [happ]),
      find_skip_incomplete mandatoryOk pre u post hpre hu]
    rfl
  · intro happ
    rw [MySQLDatabase.from_relation, fromCandidates_eq_find,
      List.find?_cons_of_pos _ happ]
    rfl

theorem claim_c4_witness :
    MySQLDatabase.from_relation ⟨dataI, [dataA]⟩ = some (mkBundle dataA) ∧
    MySQLDatabase.from_relation relA = some (mkBundle relA.app) :=
  ⟨(claim_c4_priority_order ⟨dataI, [dataA]⟩).2.1 (by decide) [] dataA [] rfl
      (by simp) (by decide),
   (claim_c4_priority_order relA).2.2 (by decide)⟩

/-- Claim C7: every single reconciliation pass — one "channel changed" or
one "channel broken" notification — emits at most one lifecycle event, and
never both `database_available` and `database_changed`. -/
theorem claim_c7_at_most_one_event (rn : String) (st : Dict) (n : Notification) :
    (MySQLServer.step rn st n).2.length ≤ 1 ∧
    ∀ d1 d2, (LifecycleEvent.database_available d1 ∈ (MySQLServer.step rn st n).2 ∧
      LifecycleEvent.database_changed d2 ∈ (MySQLServer.step rn st n).2) → False := by
  have h : (MySQLServer.step rn st n).2 = [] ∨
      ∃ e, (MySQLServer.step rn st n).2 = [e] := by
    cases n with
    | changed relations => exact on_changed_shape rn relations st
    | broken => exact Or.inr ⟨_, rfl⟩
  rcases h with h | ⟨e, h⟩ <;> rw [h]
  · exact ⟨by simp, by simp⟩
  · constructor
    · simp
    · rintro d1 d2 ⟨h1, h2⟩
      simp only [List.mem_singleton] at h1 h2
      rw [← h1] at h2
      exact LifecycleEvent.noConfusion h2

theorem claim_c7_witness :
    (MySQLServer.step "mysql" bundleA Notification.broken).2.length ≤ 1 :=
  (claim_c7_at_most_one_event "mysql" bundleA Notification.broken).1

/-- Claim C8: when the bundle extracted in a "channel changed" pass has the
same key/value pairs as the persisted bundle — regardless of insertion
order — the pass emits no event and the persisted bundle stays equal as a
mapping to what it was; and feeding the same extractable bundle in two
consecutive passes from empty state emits exactly one
`database_available`. -/
theorem claim_c8_idempotence (rn : String) (relations : List Relation) (st db : Dict) :
    (MySQLServer.database rn relations = .ok db →
      (∀ k, Dict.get db k = Dict.get st k) →
      (MySQLServer.on_changed rn relations st).2 = [] ∧
      Dict.beq (MySQLServer.on_changed rn relations st).1 st = true) ∧
    (MySQLServer.database rn relations = .ok db →
      (MySQLServer.run rn [] [.changed relations, .changed relations]).2 =
        [.database_available db]) := by
  constructor
  · intro hdb hext
    obtain ⟨c, rfl⟩ := database_ok_shape rn relations db hdb
    have hstE : st.isEmpty = false := by
      apply isEmpty_false_of_get_some st "name" ((Dict.get c "database").getD "")
      rw [← hext "name", mkBundle_get_name]
    have hbeq : Dict.beq (mkBundle c) st = true := (Dict.beq_iff _ _).mpr hext
    constructor
    · simp [MySQLServer.on_changed, hdb, hstE, hbeq]
    · simp [MySQLServer.on_changed, hdb, hstE, hbeq]
  · intro hdb
    obtain ⟨c, rfl⟩ := database_ok_shape rn relations db hdb
    simp [MySQLServer.run, MySQLServer.step, MySQLServer.on_changed, hdb,
      mkBundle_isEmpty, Dict.beq_refl]

theorem claim_c8_witness :
    ((MySQLServer.on_changed "mysql" [relA] bundlePerm).2 = [] ∧
      Dict.beq (MySQLServer.on_changed "mysql" [relA] bundlePerm).1 bundlePerm = true) ∧
    (MySQLServer.run "mysql" [] [.changed [relA], .changed [relA]]).2 =
      [.database_available bundleA] :=
  ⟨(claim_c8_idempotence "mysql" [relA] bundlePerm bundleA).1 rfl
      ((Dict.beq_iff bundleA bundlePerm).mp (by decide)),
   (claim_c8_idempotence "mysql" [relA] bundlePerm bundleA).2 rfl⟩

/-- Claim C9: from empty state, the notification sequence "changed with
extractable bundle A", "changed with extractable bundle B differing from A
as a mapping", "broken", "changed with bundle A again" emits exactly
`database_available A`, `database_changed B`, `database_unavailable`
(Blocking missing-relation), `database_available A`, in that order. -/
theorem claim_c9_lifecycle_ordering (rn : String) (rA rB : List Relation) (dbA dbB : Dict)
    (hA : MySQLServer.database rn rA = .ok dbA)
    (hB : MySQLServer.database rn rB = .ok dbB)
    (hne : ¬ ∀ k, Dict.get dbB k = Dict.get dbA k) :
    MySQLServer.run rn [] [.changed rA, .changed rB, .broken, .changed rA] =
      (dbA, [.database_available dbA, .database_changed dbB,
        .database_unavailable ⟨.Blocking, "Missing relation: " ++ rn⟩,
        .database_available dbA]) := by
  obtain ⟨cA, rfl⟩ := database_ok_shape rn rA dbA hA
  obtain ⟨cB, rfl⟩ := database_ok_shape rn rB dbB hB
  have hbeq : Dict.beq (mkBundle cB) (mkBundle cA) = false := by
    cases h : Dict.beq (mkBundle cB) (mkBundle cA) with
    | false => rfl
    | true => exact absurd ((Dict.beq_iff _ _).mp h) hne
  simp [MySQLServer.run, MySQLServer.step, MySQLServer.on_changed,
    MySQLServer.on_broken, hA, hB, hbeq, mkBundle_isEmpty]

theorem claim_c9_witness :
    MySQLServer.run "mysql" [] [.changed [relA], .changed [relB], .broken, .changed [relA]] =
      (bundleA, [.database_available bundleA, .database_changed bundleB,
        .database_unavailable ⟨.Blocking, "Missing relation: mysql"⟩,
        .database_available bundleA]) :=
  claim_c9_lifecycle_ordering "mysql" [relA] [relB] bundleA bundleB rfl rfl
    (fun hall => absurd ((Dict.beq_iff bundleB bundleA).mpr hall) (by decide))

/-- Claim C10: after each handler (`init_state`, `on_changed`, `on_broken`)
the persisted state is either the empty dictionary — failing pass or broken
channel — or exactly the bundle extracted in the pass; it never retains a
stale bundle. -/
theorem claim_c10_state_invariant (rn : String) (relations : List Relation) (st : Dict) :
    (∀ e, MySQLServer.database rn relations = .error e →
      (MySQLServer.on_changed rn relations st).1 = [] ∧
      (MySQLServer.init_state rn relations st).1 = []) ∧
    (∀ db, MySQLServer.database rn relations = .ok db →
      (MySQLServer.on_changed rn relations st).1 = db ∧
      (MySQLServer.init_state rn relations st).1 = db) ∧
    (MySQLServer.on_broken rn st).1 = [] := by
  refine ⟨?_, ?_, rfl⟩
  · intro e he
    constructor
    · simp [MySQLServer.on_changed, he]
    · simp [MySQLServer.init_state, MySQLServer.on_changed, he]
  · intro db hdb
    constructor
    · simp only [MySQLServer.on_changed, hdb]
      split
      · rfl
      · split
        · rfl
        · rfl
    · simp only [MySQLServer.init_state, MySQLServer.on_changed, hdb]
      split
      · rfl
      · split
        · rfl
        · rfl

theorem claim_c10_witness :
    ((MySQLServer.on_changed "mysql" [] bundleA).1 = [] ∧
      (MySQLServer.init_state "mysql" [] bundleA).1 = []) ∧
    ((MySQLServer.on_changed "mysql" [relA] bundleB).1 = bundleA ∧
      (MySQLServer.init_state "mysql" [relA] bundleB).1 = bundleA) ∧
    (MySQLServer.on_broken "mysql" bundleA).1 = [] :=
  ⟨(claim_c10_state_invariant "mysql" [] bundleA).1 (.missingRelation "mysql") rfl,
   (claim_c10_state_invariant "mysql" [relA] bundleB).2.1 bundleA rfl,
   (claim_c10_state_invariant "mysql" [relA] bundleA).2.2⟩

end InterfaceMySQL
